import Mathlib

/-!
Shallow embedding of the registered-electors tool of
`hkopenai/hk-election-mcp-server`
(`src/hkopenai/hk_election_mcp_server/tools/gc_registered_electors.py`).

Python dictionaries with integer keys are modelled as insertion-ordered
association lists (`PyDict`); the network layer (`fetch_csv_from_url` of the
external `hkopenai_common` package) is modelled as an oracle function from
URL strings to either a transport-error message or a list of CSV data rows,
each row being the ordered list of its field strings.
-/

/-- Insertion-ordered association list modelling a Python `Dict[int, int]`. -/
abbrev PyDict := List (Int × Int)

/-- Python `k in d` membership test on a dictionary. -/
def dictContains (d : PyDict) (k : Int) : Bool :=
  d.any (fun p => p.1 == k)

/-- Lookup of a key in a dictionary, as an `Option`. -/
def dictFind (d : PyDict) (k : Int) : Option Int :=
  match d.find? (fun p => p.1 == k) with
  | some p => some p.2
  | none => none

/-- Lookup with a default value. -/
def dictGetD (d : PyDict) (k : Int) (v0 : Int) : Int :=
  (dictFind d k).getD v0

/-- Python `d[k] = v`: update the value in place if the key is present
(keeping its position), otherwise append the new pair at the end. -/
def dictSet (d : PyDict) (k v : Int) : PyDict :=
  if dictContains d k then
    d.map (fun p => if p.1 == k then (k, v) else p)
  else
    d ++ [(k, v)]

/-- Inner loop of `parse_digits`: remaining characters of a Python integer
literal after its first digit; a single underscore may separate digits. -/
def parseDigitsGo (acc : Nat) : List Char → Option Nat
  | [] => some acc
  | '_' :: rest =>
    match rest with
    | c :: cs =>
      if c.isDigit then parseDigitsGo (acc * 10 + (c.toNat - 48)) cs else none
    | [] => none
  | c :: cs =>
    if c.isDigit then parseDigitsGo (acc * 10 + (c.toNat - 48)) cs else none

/-- Digit part of a Python integer literal: a digit followed by digits with
optional single underscores between them. -/
def parseDigits : List Char → Option Nat
  | c :: cs => if c.isDigit then parseDigitsGo (c.toNat - 48) cs else none
  | [] => none

/-- Whitespace removal from both ends of a character list, modelling Python
`str.strip()` with no argument. -/
def trimChars (cs : List Char) : List Char :=
  ((cs.dropWhile Char.isWhitespace).reverse.dropWhile Char.isWhitespace).reverse

/-- Model of Python `int(s)` on strings: surrounding whitespace is ignored,
an optional sign precedes the digits, and conversion fails (`ValueError`,
here `none`) on anything else. -/
def pyInt (s : String) : Option Int :=
  match trimChars s.data with
  | '+' :: cs => (parseDigits cs).map (fun n => (n : Int))
  | '-' :: cs => (parseDigits cs).map (fun n => -(n : Int))
  | cs => (parseDigits cs).map (fun n => (n : Int))

/-- Python `s.strip().replace(",", "")` applied to the count field. -/
def stripCommas (s : String) : String :=
  String.mk ((trimChars s.data).filter (fun c => c ≠ ','))

/-- One iteration of the row loop of `_parse_csv_data`: a row with at least
two fields whose first field converts by `int(field.strip())` and whose
second converts by `int(field.strip().replace(",", ""))` yields a
year/count pair; every other row is skipped (`none`). -/
def parseRow : List String → Option (Int × Int)
  | y :: c :: _ =>
    match pyInt y, pyInt (stripCommas c) with
    | some yr, some ct => some (yr, ct)
    | _, _ => none
  | _ => none

/-- `_parse_csv_data`: fold the rows into a dictionary; a row that parses
writes its pair with `d[year] = count` (last write wins within one
resource), a row that fails to parse is skipped. -/
def parse_csv_data (data : List (List String)) : PyDict :=
  data.foldl
    (fun acc row =>
      match parseRow row with
      | some (y, c) => dictSet acc y c
      | none => acc)
    []

/-- Outcome of `fetch_csv_from_url`: either a transport-error dictionary
with message `msg`, or the list of CSV data rows (possibly empty). -/
inductive FetchCSVResult where
  | error (msg : String)
  | rows (rs : List (List String))
deriving DecidableEq

/-- First URL naming convention for a year. -/
def url1 (year : Int) : String :=
  "https://www.voterregistration.gov.hk/eng/psi/csv/" ++ toString year ++
    "_gc-no-of-registered-electors.csv"

/-- Second URL naming convention for a year. -/
def url2 (year : Int) : String :=
  "https://www.voterregistration.gov.hk/eng/psi/csv/" ++ toString year ++
    "_gc-no-of-registered-electors_en.csv"

/-- Result of `_try_fetch_year_data`: either a propagated transport-error
dictionary, or a year-to-count dictionary (possibly empty). -/
inductive YearFetchResult where
  | error (msg : String)
  | data (m : PyDict)
deriving DecidableEq

/-- The `for url in urls` loop of `_try_fetch_year_data`: a transport error
propagates at once; a non-empty row list is parsed and returned; an empty
row list falls through to the next URL; after the loop an empty
dictionary is returned. -/
def tryFetchUrls (fetch : String → FetchCSVResult) : List String → YearFetchResult
  | [] => .data []
  | u :: rest =>
    match fetch u with
    | .error msg => .error msg
    | .rows rs => if rs ≠ [] then .data (parse_csv_data rs) else tryFetchUrls fetch rest

/-- `_try_fetch_year_data`: try the two URL naming conventions in order. -/
def try_fetch_year_data (fetch : String → FetchCSVResult) (year : Int) : YearFetchResult :=
  tryFetchUrls fetch [url1 year, url2 year]

/-- The `for offset in [-1, 1, -2, 2]` fallback loop of
`_fetch_gc_registered_electors_data`, for one `current_year` whose direct
fetch was empty: candidates outside `2009 ≤ test_year ≤ end_year` are
skipped; a transport error aborts; the first candidate whose dictionary
contains `current_year` has that single entry written with
`data_dict[current_year] = csv_data[current_year]`, ending the loop. -/
def fallbackScan (fetch : String → FetchCSVResult) (endYear currentYear : Int)
    (d : PyDict) : List Int → Except String PyDict
  | [] => .ok d
  | offset :: rest =>
    let testYear := currentYear + offset
    if 2009 ≤ testYear ∧ testYear ≤ endYear then
      match try_fetch_year_data fetch testYear with
      | .error msg => .error msg
      | .data m =>
        if !m.isEmpty && dictContains m currentYear then
          .ok (dictSet d currentYear (dictGetD m currentYear 0))
        else
          fallbackScan fetch endYear currentYear d rest
    else
      fallbackScan fetch endYear currentYear d rest

/-- The merge step for a non-empty direct fetch: `for year, count in
csv_data.items(): if year not in data_dict: data_dict[year] = count`
(first write wins across iterations). -/
def mergeNoOverwrite (d : PyDict) (m : PyDict) : PyDict :=
  m.foldl (fun acc p => if dictContains acc p.1 then acc else dictSet acc p.1 p.2) d

/-- The `while current_year <= end_year` loop of
`_fetch_gc_registered_electors_data`, modelled as iteration over the list
of years from `start_year` to `end_year`: a transport error (direct or
from the fallback loop) aborts the whole aggregation; a non-empty direct
fetch is merged without overwriting; an empty direct fetch triggers the
fallback loop. -/
def aggYears (fetch : String → FetchCSVResult) (endYear : Int) (d : PyDict) :
    List Int → Except String PyDict
  | [] => .ok d
  | cy :: rest =>
    match try_fetch_year_data fetch cy with
    | .error msg => .error msg
    | .data m =>
      if !m.isEmpty then
        aggYears fetch endYear (mergeNoOverwrite d m) rest
      else
        match fallbackScan fetch endYear cy d [-1, 1, -2, 2] with
        | .error msg => .error msg
        | .ok d2 => aggYears fetch endYear d2 rest

/-- The list of years the while loop visits: `start_year, start_year + 1,
..., end_year` (empty when `end_year < start_year`). -/
def yearsRange (s e : Int) : List Int :=
  (List.range (e + 1 - s).toNat).map (fun i : Nat => s + (i : Int))

/-- Non-strict lexicographic order on pairs, the order Python `sorted` uses
on `(year, count)` tuples. -/
def lexLe (a b : Int × Int) : Prop :=
  a.1 < b.1 ∨ (a.1 = b.1 ∧ a.2 ≤ b.2)

instance : DecidableRel lexLe := fun a b =>
  if h : a.1 < b.1 ∨ (a.1 = b.1 ∧ a.2 ≤ b.2) then .isTrue h else .isFalse h

instance : IsTotal (Int × Int) lexLe :=
  ⟨by intro a b; unfold lexLe; omega⟩

instance : IsTrans (Int × Int) lexLe :=
  ⟨by intro a b c; unfold lexLe; omega⟩

/-- Python `sorted(data_dict.items())`. -/
def sortedItems (d : PyDict) : PyDict :=
  d.insertionSort lexLe

/-- Result of `_fetch_gc_registered_electors_data`. The Python function
returns a one-element list holding an error dictionary for range and
no-data errors, the bare error dictionary itself for propagated transport
errors, and a list of year/electors records on success. -/
inductive FetchDataResult where
  | errList (msg : String)
  | errDict (msg : String)
  | success (records : PyDict)
deriving DecidableEq

/-- `_fetch_gc_registered_electors_data`: range checks, the year loop, then
the sorted and range-filtered output list. -/
def fetch_gc_registered_electors_data (fetch : String → FetchCSVResult)
    (startYear endYear : Int) : FetchDataResult :=
  if startYear < 2009 then
    .errList "Start year must be 2009 or later"
  else if startYear > endYear then
    .errList "Start year must be less than or equal to end year"
  else
    match aggYears fetch endYear [] (yearsRange startYear endYear) with
    | .error msg => .errDict msg
    | .ok d =>
      let result := (sortedItems d).filter
        (fun p => decide (startYear ≤ p.1) && decide (p.1 ≤ endYear))
      if result.isEmpty then
        .errList "No data found for the specified year range"
      else
        .success result

/-- Observable outcome of `_get_gc_registered_electors`: a success payload,
an error dictionary, or an uncaught Python exception. -/
inductive GcOutcome where
  | ok (data : PyDict) (source note : String)
  | err (msg : String)
  | exc (e : String)
deriving DecidableEq

/-- `_get_gc_registered_electors`: evaluates `data[0]` on the value returned
by `_fetch_gc_registered_electors_data`. On a one-element error list,
`data[0]` is the error dictionary and the error payload is returned. On a
bare transport-error dictionary, `data[0]` is a dictionary subscript with
the key `0`, which is absent, so Python raises `KeyError: 0`. On a
success list, `data[0]` is the first year/electors record, which has no
`"error"` key, so the success payload is returned (an empty list would
raise `IndexError`, but the success case is never empty). -/
def get_gc_registered_electors (fetch : String → FetchCSVResult)
    (startYear endYear : Int) : GcOutcome :=
  match fetch_gc_registered_electors_data fetch startYear endYear with
  | .errList msg => .err msg
  | .errDict _ => .exc "KeyError: 0"
  | .success records =>
    match records with
    | [] => .exc "IndexError: list index out of range"
    | _ :: _ =>
      .ok records "Registration and Electoral Office"
        "Data fetched from voterregistration.gov.hk"

/-- Fetch oracle where the first URL of year 2019 fails at the transport
level and every other URL yields no rows. -/
def oracleTransportErr (u : String) : FetchCSVResult :=
  if u = url1 2019 then .error "Fetch failed" else .rows []

/-- Fetch oracle where the 2018 resource bundles years 2018 and 2020, the
2019 resource bundles 2019 and a different count for 2020, and the 2020
resource is empty. -/
def oracleOverwrite (u : String) : FetchCSVResult :=
  if u = url1 2018 then .rows [["2018", "1"], ["2020", "5"]]
  else if u = url1 2019 then .rows [["2019", "2"], ["2020", "7"]]
  else .rows []

/-- Fetch oracle where only the 2020 resource exists and bundles years 2020
and 2021. -/
def oracleNeighbor (u : String) : FetchCSVResult :=
  if u = url1 2020 then .rows [["2020", "4000000"], ["2021", "4100000"]]
  else .rows []

/-- Fetch oracle whose 2015 resource reports a negative count. -/
def oracleNegative (u : String) : FetchCSVResult :=
  if u = url1 2015 then .rows [["2015", "-5"]] else .rows []

/-- Fetch oracle for the end-to-end scenario: single-year resources for
2019, 2020 and 2022, and nothing anywhere else. -/
def oracleEndToEnd (u : String) : FetchCSVResult :=
  if u = url1 2019 then .rows [["2019", "3800000"]]
  else if u = url1 2020 then .rows [["2020", "4000000"]]
  else if u = url1 2022 then .rows [["2022", "4200000"]]
  else .rows []

/-- Fetch oracle where the 2020 resource is non-empty but carries only year
2019, while the 2019 resource does carry year 2020. -/
def oracleNoSelf (u : String) : FetchCSVResult :=
  if u = url1 2019 then .rows [["2019", "4"], ["2020", "9"]]
  else if u = url1 2020 then .rows [["2019", "5"]]
  else .rows []

/-- Fetch oracle whose first-convention resource for 2015 is non-empty and
whose every other resource is also non-empty. -/
def oracleFirstHit (u : String) : FetchCSVResult :=
  if u = url1 2015 then .rows [["2015", "1"]] else .rows [["9", "9"]]

/-- Fetch oracle agreeing with `oracleFirstHit` on the first-convention URL
for 2015 but failing at the transport level everywhere else. -/
def oracleFirstHitErr (u : String) : FetchCSVResult :=
  if u = url1 2015 then .rows [["2015", "1"]] else .error "second URL down"

/-- Year-source fetcher as the spec describes it, written as explicit nested
cases: a transport error on the first convention propagates immediately;
a non-error response with rows is parsed and used, even when the parse is
empty; only a no-error, no-resource first attempt reaches the second
convention, which behaves the same; two empty attempts give the empty
mapping. -/
def tryFetchYearDataSpec (fetch : String → FetchCSVResult) (year : Int) :
    YearFetchResult :=
  match fetch (url1 year) with
  | .error msg => .error msg
  | .rows r1 =>
    if r1 ≠ [] then .data (parse_csv_data r1)
    else
      match fetch (url2 year) with
      | .error msg => .error msg
      | .rows r2 => if r2 ≠ [] then .data (parse_csv_data r2) else .data []

/-- Fallback candidate years as the spec describes them: offsets -1, +1,
-2, +2 from the current year, in that fixed order, restricted to years
at least 2009 and at most `end_year`. -/
def fallbackCandidates (endYear currentYear : Int) : List Int :=
  (([-1, 1, -2, 2] : List Int).map (fun o => currentYear + o)).filter
    (fun t => decide (2009 ≤ t) && decide (t ≤ endYear))

/-- Fallback search as the spec describes it, scanning an explicit list of
candidate years: a transport error aborts; the first candidate whose
mapping contains the current year has that single entry merged, ending
the search; otherwise the dataset is unchanged. -/
def fallbackScanSpec (fetch : String → FetchCSVResult) (currentYear : Int)
    (d : PyDict) : List Int → Except String PyDict
  | [] => .ok d
  | t :: rest =>
    match try_fetch_year_data fetch t with
    | .error msg => .error msg
    | .data m =>
      if !m.isEmpty && dictContains m currentYear then
        .ok (dictSet d currentYear (dictGetD m currentYear 0))
      else
        fallbackScanSpec fetch currentYear d rest

/-- Pairwise-distinct keys, the invariant of a Python dictionary. -/
def keysDistinct (d : PyDict) : Prop :=
  List.Pairwise (fun a b => a.1 ≠ b.1) d

/-- A key bound in a dictionary keeps its value when pairs are appended on
the right. -/
theorem dictFind_append_left (d tail : PyDict) (k v : Int)
    (h : dictFind d k = some v) : dictFind (d ++ tail) k = some v := by
  unfold dictFind at h ⊢
  cases hf : List.find? (fun p => p.1 == k) d with
  | none => rw [hf] at h; exact absurd h (by simp)
  | some p =>
    rw [hf] at h
    rw [List.find?_append, hf]
    simpa using h

/-- Writing an absent key appends it. -/
theorem dictSet_of_not_contains (d : PyDict) (k v : Int)
    (h : dictContains d k = false) : dictSet d k v = d ++ [(k, v)] := by
  unfold dictSet
  rw [if_neg (by simp [h])]

/-- The first-write-wins merge of the aggregator never changes the value
recorded for a key that is already present. -/
theorem dictFind_mergeNoOverwrite (m : PyDict) :
    ∀ (d : PyDict) (k v : Int), dictFind d k = some v →
      dictFind (mergeNoOverwrite d m) k = some v := by
  induction m with
  | nil => intro d k v h; simpa [mergeNoOverwrite] using h
  | cons p rest ih =>
    intro d k v h
    unfold mergeNoOverwrite at ih ⊢
    rw [List.foldl_cons]
    by_cases hc : dictContains d p.1
    · rw [if_pos hc]
      exact ih d k v h
    · rw [if_neg hc]
      rw [dictSet_of_not_contains d p.1 p.2 (by simpa using hc)]
      exact ih _ k v (dictFind_append_left d [(p.1, p.2)] k v h)


/-- C1: per the spec and the repository test, a transport error during
aggregation should surface as an error payload with exactly that message;
but `_get_gc_registered_electors` evaluates `data[0]` on the bare error
dictionary that `_fetch_gc_registered_electors_data` returns for
transport errors, which raises `KeyError: 0` instead of returning the
error payload. The aggregator itself does propagate exactly the message,
as the first conjunct shows. -/
theorem claim_C1_keyerror_on_transport_error :
    fetch_gc_registered_electors_data oracleTransportErr 2019 2019 =
      .errDict "Fetch failed" ∧
    get_gc_registered_electors oracleTransportErr 2019 2019 =
      .exc "KeyError: 0" := by
  exact ⟨by decide, by decide⟩

/-- C2 counterexample: with resources bundling several years, the pair
(2020, 5) is recorded by the iteration for 2018 and survives the direct
merge of the iteration for 2019, yet the fallback search run by the
iteration for 2020 (whose own resource is empty) overwrites it with the
count 7 found in the 2019 resource, so the final dataset carries
(2020, 7). -/
theorem claim_C2_counterexample :
    aggYears oracleOverwrite 2020 [] (yearsRange 2018 2019) =
      .ok [(2018, 1), (2020, 5), (2019, 2)] ∧
    dictFind [(2018, 1), (2020, 5), (2019, 2)] 2020 = some 5 ∧
    aggYears oracleOverwrite 2020 [(2018, 1), (2020, 5), (2019, 2)]
      (yearsRange 2020 2020) = .ok [(2018, 1), (2020, 7), (2019, 2)] ∧
    get_gc_registered_electors oracleOverwrite 2018 2020 =
      .ok [(2018, 1), (2019, 2), (2020, 7)] "Registration and Electoral Office"
        "Data fetched from voterregistration.gov.hk" := by
  exact ⟨by rfl, by decide, by rfl, by decide⟩

/-- C2 amended: merging of direct-fetch mappings is first-write-wins per
year — once a (year, count) pair is recorded, no later direct fetch whose
mapping contains that year replaces the recorded count; the fallback
assignment, by contrast, writes unconditionally and can replace it. -/
theorem claim_C2_direct_merge_first_write_wins (d m : PyDict) (k v : Int)
    (h : dictFind d k = some v) :
    dictFind (mergeNoOverwrite d m) k = some v :=
  dictFind_mergeNoOverwrite m d k v h

/-- C2 witness: a recorded count 5 for year 2020 survives merging a mapping
that reports 7 for 2020. -/
theorem claim_C2_witness :
    dictFind (mergeNoOverwrite [(2020, 5)] [(2020, 7), (2019, 2)]) 2020 =
      some 5 :=
  claim_C2_direct_merge_first_write_wins [(2020, 5)] [(2020, 7), (2019, 2)]
    2020 5 (by decide)

/-- C5 counterexample: for `start_year = 2005 > 2000 = end_year` the
function returns the 2009 lower-bound error, not the claimed
start-after-end message, because the 2009 check runs first. -/
theorem claim_C5_counterexample :
    get_gc_registered_electors (fun _ => .rows []) 2005 2000 =
      .err "Start year must be 2009 or later" ∧
    get_gc_registered_electors (fun _ => .rows []) 2005 2000 ≠
      .err "Start year must be less than or equal to end year" := by
  exact ⟨by decide, by decide⟩

/-- C5 amended: for every pair with `start_year ≥ 2009` and
`start_year > end_year`, and for every fetch oracle (hence with no fetch
attempted, as the result does not depend on the oracle), the result is
the start-after-end error payload. -/
theorem claim_C5_range_error (fetch : String → FetchCSVResult) (s e : Int)
    (h1 : 2009 ≤ s) (h2 : e < s) :
    get_gc_registered_electors fetch s e =
      .err "Start year must be less than or equal to end year" := by
  unfold get_gc_registered_electors fetch_gc_registered_electors_data
  rw [if_neg (by omega), if_pos (by omega)]

/-- C5 witness: the amended claim evaluated at (2010, 2009). -/
theorem claim_C5_witness :
    get_gc_registered_electors (fun _ => .rows []) 2010 2009 =
      .err "Start year must be less than or equal to end year" :=
  claim_C5_range_error (fun _ => .rows []) 2010 2009 (by decide) (by decide)

/-- C7: aggregation over (2019, 2022) with single-year resources for 2019,
2020 and 2022 and nothing for 2021 (also in its neighbors) succeeds with
exactly the three entries in ascending order, 2021 absent. -/
theorem claim_C7_end_to_end :
    get_gc_registered_electors oracleEndToEnd 2019 2022 =
      .ok [(2019, 3800000), (2020, 4000000), (2022, 4200000)]
        "Registration and Electoral Office"
        "Data fetched from voterregistration.gov.hk" := by
  decide

/-- C9: the row parser maps the two concrete row lists to exactly the
claimed mappings, and in general a row whose fields do not parse is
skipped without affecting the rest. -/
theorem claim_C9_row_parsing :
    parse_csv_data [["2015", "3693942"], ["2016", "3779085"]] =
      [(2015, 3693942), (2016, 3779085)] ∧
    parse_csv_data [["Invalid", "Data"], ["2015", "3693942"]] =
      [(2015, 3693942)] ∧
    ∀ (pre post : List (List String)) (row : List String),
      parseRow row = none →
      parse_csv_data (pre ++ row :: post) = parse_csv_data (pre ++ post) := by
  refine ⟨by decide, by decide, ?_⟩
  intro pre post row h
  unfold parse_csv_data
  simp only [List.foldl_append, List.foldl_cons, h]

/-- C9 witness: an unparsable one-field row between two valid rows is
skipped. -/
theorem claim_C9_witness :
    parse_csv_data ([["2016", "10"]] ++ ["bad"] :: [["2015", "5"]]) =
      parse_csv_data ([["2016", "10"]] ++ [["2015", "5"]]) :=
  claim_C9_row_parsing.2.2 [["2016", "10"]] [["2015", "5"]] ["bad"] (by decide)

/-- C10: when the direct fetch for a year yields a non-empty mapping, the
iteration merges it and moves on without any fallback search, whatever
the mapping contains; concretely, for the range (2020, 2020) where the
2020 resource carries only year 2019 while the 2019 resource does carry
year 2020, the result is the no-data error — the fallback that would have
found 2020 in the 2019 resource is never attempted. -/
theorem claim_C10_no_fallback_when_nonempty :
    (∀ (fetch : String → FetchCSVResult) (e cy : Int) (d m : PyDict)
        (rest : List Int),
      try_fetch_year_data fetch cy = .data m → m ≠ [] →
      aggYears fetch e d (cy :: rest) =
        aggYears fetch e (mergeNoOverwrite d m) rest) ∧
    try_fetch_year_data oracleNoSelf 2019 = .data [(2019, 4), (2020, 9)] ∧
    dictContains [(2019, 4), (2020, 9)] 2020 = true ∧
    get_gc_registered_electors oracleNoSelf 2020 2020 =
      .err "No data found for the specified year range" := by
  refine ⟨?_, by decide, by decide, by decide⟩
  intro fetch e cy d m rest hf hm
  have hne : m.isEmpty = false := by
    cases m with
    | nil => exact absurd rfl hm
    | cons p ps => rfl
  simp [aggYears, hf, hne]

/-- C10 witness: the no-fallback step equation applied to the concrete
oracle at year 2020. -/
theorem claim_C10_witness :
    aggYears oracleNoSelf 2020 [] [2020] =
      aggYears oracleNoSelf 2020 (mergeNoOverwrite [] [(2019, 5)]) [] :=
  claim_C10_no_fallback_when_nonempty.1 oracleNoSelf 2020 2020 [] [(2019, 5)]
    [] (by decide) (by decide)

/-- The URL loop of the fetcher coincides with the nested-case description
of the spec. -/
theorem tryFetchYearData_eq_spec (fetch : String → FetchCSVResult) (y : Int) :
    try_fetch_year_data fetch y = tryFetchYearDataSpec fetch y := by
  unfold try_fetch_year_data tryFetchYearDataSpec
  simp only [tryFetchUrls]

/-- C6: the fetcher equals the fixed-order two-convention behavior the spec
describes (first conjunct), and whenever the first convention does not
come back as an empty row list, the outcome is independent of what the
second convention would return (second conjunct). -/
theorem claim_C6_url_order :
    (∀ (fetch : String → FetchCSVResult) (y : Int),
      try_fetch_year_data fetch y = tryFetchYearDataSpec fetch y) ∧
    (∀ (f g : String → FetchCSVResult) (y : Int),
      f (url1 y) = g (url1 y) → f (url1 y) ≠ .rows [] →
      try_fetch_year_data f y = try_fetch_year_data g y) := by
  refine ⟨tryFetchYearData_eq_spec, ?_⟩
  intro f g y h1 h2
  rw [tryFetchYearData_eq_spec, tryFetchYearData_eq_spec]
  unfold tryFetchYearDataSpec
  rw [← h1]
  cases hf : f (url1 y) with
  | error msg => rfl
  | rows r1 =>
    have hr : r1 ≠ [] := by
      intro he
      subst he
      exact h2 hf
    simp [hr]

/-- C6 witness: two oracles agreeing on a non-empty first-convention
response give the same fetch result, whatever the second convention
would do. -/
theorem claim_C6_witness :
    try_fetch_year_data oracleFirstHit 2015 =
      try_fetch_year_data oracleFirstHitErr 2015 :=
  claim_C6_url_order.2 oracleFirstHit oracleFirstHitErr 2015 (by decide)
    (by decide)

/-- The guarded fallback loop over offsets equals the spec-style scan over
the filtered list of candidate years. -/
theorem fallbackScan_eq_spec (fetch : String → FetchCSVResult)
    (e cy : Int) (d : PyDict) (os : List Int) :
    fallbackScan fetch e cy d os =
      fallbackScanSpec fetch cy d
        ((os.map (fun o => cy + o)).filter
          (fun t => decide (2009 ≤ t) && decide (t ≤ e))) := by
  induction os with
  | nil => rfl
  | cons o rest ih =>
    by_cases h : 2009 ≤ cy + o ∧ cy + o ≤ e
    · have hf : List.filter (fun t => decide (2009 ≤ t) && decide (t ≤ e))
          (List.map (fun o => cy + o) (o :: rest)) =
            (cy + o) :: List.filter (fun t => decide (2009 ≤ t) && decide (t ≤ e))
              (List.map (fun o => cy + o) rest) := by
        simp [List.filter_cons, h.1, h.2]
      rw [hf]
      simp only [fallbackScan, fallbackScanSpec]
      rw [if_pos h]
      cases htf : try_fetch_year_data fetch (cy + o) with
      | error msg => simp
      | data m =>
        by_cases hm : (!m.isEmpty && dictContains m cy) = true
        · simp [hm]
        · simp [hm, ih]
    · have hb : (decide (2009 ≤ cy + o) && decide (cy + o ≤ e)) = false := by
        rcases Decidable.not_and_iff_or_not.mp h with h1 | h1 <;> simp [h1]
      have hf : List.filter (fun t => decide (2009 ≤ t) && decide (t ≤ e))
          (List.map (fun o => cy + o) (o :: rest)) =
            List.filter (fun t => decide (2009 ≤ t) && decide (t ≤ e))
              (List.map (fun o => cy + o) rest) := by
        simp only [List.map_cons, List.filter_cons, hb]
        simp
      rw [hf, ← ih]
      simp only [fallbackScan]
      rw [if_neg h]

/-- C3: the fallback search tries exactly the candidates at offsets -1, +1,
-2, +2 restricted to 2009 through `end_year`, in that order, merging only
the single entry for the current year at the first hit (first and second
conjuncts); concretely, when the direct fetch for 2021 is empty and the
2020 resource carries both 2020 and 2021, aggregation over (2021, 2021)
yields the 2021 count from the 2020 resource. -/
theorem claim_C3_fallback_search :
    (∀ (fetch : String → FetchCSVResult) (e cy : Int) (d : PyDict),
      fallbackScan fetch e cy d [-1, 1, -2, 2] =
        fallbackScanSpec fetch cy d (fallbackCandidates e cy)) ∧
    fallbackScan oracleNeighbor 2021 2021 [] [-1, 1, -2, 2] =
      .ok [(2021, 4100000)] ∧
    get_gc_registered_electors oracleNeighbor 2021 2021 =
      .ok [(2021, 4100000)] "Registration and Electoral Office"
        "Data fetched from voterregistration.gov.hk" := by
  refine ⟨?_, by rfl, by decide⟩
  intro fetch e cy d
  exact fallbackScan_eq_spec fetch e cy d [-1, 1, -2, 2]

/-- Every year the while loop visits lies between the start and end year. -/
theorem mem_yearsRange (s e cy : Int) (h : cy ∈ yearsRange s e) :
    s ≤ cy ∧ cy ≤ e := by
  unfold yearsRange at h
  obtain ⟨i, hi, hcy⟩ := List.mem_map.mp h
  have hi2 := List.mem_range.mp hi
  subst hcy
  omega

/-- When every fetchable year (between 2009 and the end year) yields the
empty mapping, the fallback loop never writes anything and never
errors. -/
theorem fallbackScan_all_empty (fetch : String → FetchCSVResult) (e cy : Int)
    (hf : ∀ y, 2009 ≤ y → y ≤ e → try_fetch_year_data fetch y = .data [])
    (d : PyDict) :
    ∀ os : List Int, fallbackScan fetch e cy d os = .ok d := by
  intro os
  induction os with
  | nil => rfl
  | cons o rest ih =>
    simp only [fallbackScan]
    by_cases h : 2009 ≤ cy + o ∧ cy + o ≤ e
    · rw [if_pos h, hf (cy + o) h.1 h.2]
      simpa using ih
    · rw [if_neg h]
      exact ih

/-- When every visited year and every fetchable fallback year yields the
empty mapping, the year loop leaves the empty dataset empty. -/
theorem aggYears_all_empty (fetch : String → FetchCSVResult) (e : Int)
    (hf : ∀ y, 2009 ≤ y → y ≤ e → try_fetch_year_data fetch y = .data []) :
    ∀ ys : List Int, (∀ cy ∈ ys, 2009 ≤ cy ∧ cy ≤ e) →
      aggYears fetch e [] ys = .ok [] := by
  intro ys
  induction ys with
  | nil => intro _; rfl
  | cons cy rest ih =>
    intro hys
    have hcy := hys cy (List.mem_cons_self cy rest)
    simp only [aggYears]
    rw [hf cy hcy.1 hcy.2, fallbackScan_all_empty fetch e cy hf []]
    simpa using ih (fun y hy => hys y (List.mem_cons_of_mem cy hy))

/-- C8: for every valid range and every fetch oracle for which every direct
fetch over the range and every possible fallback fetch (years between
2009 and the end year) yields an empty mapping and never a transport
error, the result is exactly the no-data error payload. -/
theorem claim_C8_no_data (fetch : String → FetchCSVResult) (s e : Int)
    (h1 : 2009 ≤ s) (h2 : s ≤ e)
    (hf : ∀ y, 2009 ≤ y → y ≤ e → try_fetch_year_data fetch y = .data []) :
    get_gc_registered_electors fetch s e =
      .err "No data found for the specified year range" := by
  unfold get_gc_registered_electors fetch_gc_registered_electors_data
  rw [if_neg (by omega), if_neg (by omega),
    aggYears_all_empty fetch e hf (yearsRange s e)
      (fun cy hcy => by have := mem_yearsRange s e cy hcy; omega)]
  rfl

/-- C8 witness: the oracle that always returns an empty row list, on the
range (2009, 2010). -/
theorem claim_C8_witness :
    get_gc_registered_electors (fun _ => .rows []) 2009 2010 =
      .err "No data found for the specified year range" :=
  claim_C8_no_data (fun _ => .rows []) 2009 2010 (by decide) (by decide)
    (fun _ _ _ => rfl)

/-- Writing a key into a dictionary preserves distinctness of keys. -/
theorem keysDistinct_dictSet (d : PyDict) (k v : Int)
    (h : keysDistinct d) : keysDistinct (dictSet d k v) := by
  unfold dictSet
  by_cases hc : dictContains d k
  · rw [if_pos hc]
    unfold keysDistinct at h ⊢
    rw [List.pairwise_map]
    have hg : ∀ p : Int × Int, ((if p.1 == k then (k, v) else p).1) = p.1 := by
      intro p
      by_cases hp : p.1 = k
      · simp [hp]
      · simp [hp]
    refine h.imp ?_
    intro a b hab
    rw [hg a, hg b]
    exact hab
  · rw [if_neg hc]
    unfold keysDistinct at h ⊢
    rw [List.pairwise_append]
    refine ⟨h, List.pairwise_singleton _ _, ?_⟩
    intro a ha b hb
    have hb2 : b = (k, v) := by simpa using hb
    subst hb2
    unfold dictContains at hc
    simp only [List.any_eq_true, not_exists, not_and, Bool.not_eq_true] at hc
    have := hc a ha
    simp at this
    simpa using fun he => this (by rw [← he])

/-- The first-write-wins merge preserves distinctness of keys. -/
theorem keysDistinct_mergeNoOverwrite (m : PyDict) :
    ∀ d : PyDict, keysDistinct d → keysDistinct (mergeNoOverwrite d m) := by
  induction m with
  | nil => intro d h; simpa [mergeNoOverwrite] using h
  | cons p rest ih =>
    intro d h
    unfold mergeNoOverwrite at ih ⊢
    rw [List.foldl_cons]
    by_cases hc : dictContains d p.1
    · rw [if_pos hc]
      exact ih d h
    · rw [if_neg hc]
      exact ih _ (keysDistinct_dictSet d p.1 p.2 h)

/-- A successful fallback search preserves distinctness of keys. -/
theorem keysDistinct_fallbackScan (fetch : String → FetchCSVResult)
    (e cy : Int) (d : PyDict) (h : keysDistinct d) :
    ∀ (os : List Int) (d2 : PyDict),
      fallbackScan fetch e cy d os = .ok d2 → keysDistinct d2 := by
  intro os
  induction os with
  | nil =>
    intro d2 hs
    cases hs
    exact h
  | cons o rest ih =>
    intro d2 hs
    simp only [fallbackScan] at hs
    split at hs
    · split at hs
      · cases hs
      · split at hs
        · cases hs
          exact keysDistinct_dictSet d cy (dictGetD _ cy 0) h
        · exact ih d2 hs
    · exact ih d2 hs

/-- A successful run of the year loop preserves distinctness of keys. -/
theorem keysDistinct_aggYears (fetch : String → FetchCSVResult) (e : Int) :
    ∀ (ys : List Int) (d d2 : PyDict), keysDistinct d →
      aggYears fetch e d ys = .ok d2 → keysDistinct d2 := by
  intro ys
  induction ys with
  | nil =>
    intro d d2 h hs
    cases hs
    exact h
  | cons cy rest ih =>
    intro d d2 h hs
    simp only [aggYears] at hs
    split at hs
    · cases hs
    · split at hs
      · exact ih _ d2 (keysDistinct_mergeNoOverwrite _ d h) hs
      · split at hs
        · cases hs
        · next dmid hfs =>
            exact ih dmid d2
              (keysDistinct_fallbackScan fetch e cy d h _ dmid hfs) hs

/-- Sorting a dictionary with distinct keys yields a list strictly
increasing in the year component. -/
theorem sortedItems_pairwise_lt (d : PyDict) (h : keysDistinct d) :
    List.Pairwise (fun a b : Int × Int => a.1 < b.1) (sortedItems d) := by
  have hs : List.Sorted lexLe (sortedItems d) :=
    List.sorted_insertionSort lexLe d
  have hnd : keysDistinct (sortedItems d) := by
    unfold keysDistinct at h ⊢
    exact ((List.perm_insertionSort lexLe d).pairwise_iff
      (fun hab => Ne.symm hab)).mpr h
  have hb : List.Pairwise
      (fun a b : Int × Int => lexLe a b ∧ a.1 ≠ b.1) (sortedItems d) :=
    hs.and hnd
  refine hb.imp ?_
  intro a b hab
  obtain ⟨hle, hne⟩ := hab
  rcases hle with h1 | ⟨h2, _⟩
  · exact h1
  · exact absurd h2 hne

/-- Inversion of a successful aggregation: the range checks passed, the
year loop succeeded with some dataset, and the records are the sorted,
range-filtered items of that dataset. -/
theorem fetchData_success_inv (fetch : String → FetchCSVResult)
    (s e : Int) (records : PyDict)
    (h : fetch_gc_registered_electors_data fetch s e = .success records) :
    2009 ≤ s ∧ ∃ d, aggYears fetch e [] (yearsRange s e) = .ok d ∧
      records = (sortedItems d).filter
        (fun p => decide (s ≤ p.1) && decide (p.1 ≤ e)) := by
  unfold fetch_gc_registered_electors_data at h
  by_cases h1 : s < 2009
  · rw [if_pos h1] at h
    cases h
  · rw [if_neg h1] at h
    by_cases h2 : s > e
    · rw [if_pos h2] at h
      cases h
    · rw [if_neg h2] at h
      refine ⟨by omega, ?_⟩
      split at h
      · cases h
      · next d hagg =>
          refine ⟨d, hagg, ?_⟩
          dsimp only [] at h
          split at h
          · cases h
          · cases h
            rfl

/-- Inversion of a success payload of the tool: it comes from a successful
aggregation with exactly those records. -/
theorem getGc_ok_inv (fetch : String → FetchCSVResult) (s e : Int)
    (data : PyDict) (src note : String)
    (h : get_gc_registered_electors fetch s e = .ok data src note) :
    fetch_gc_registered_electors_data fetch s e = .success data := by
  unfold get_gc_registered_electors at h
  cases hf : fetch_gc_registered_electors_data fetch s e with
  | errList msg => rw [hf] at h; cases h
  | errDict msg => rw [hf] at h; cases h
  | success records =>
    rw [hf] at h
    cases records with
    | nil => cases h
    | cons r rs =>
      cases h
      rfl

/-- C4 amended: every success payload is strictly ascending in year with no
duplicate years, and every listed year lies between `start_year` and
`end_year` and hence at or above 2009; the elector counts are integers
but, for adversarial CSV contents, not necessarily non-negative. -/
theorem claim_C4_sorted_bounded (fetch : String → FetchCSVResult)
    (s e : Int) (data : PyDict) (src note : String)
    (h : get_gc_registered_electors fetch s e = .ok data src note) :
    List.Pairwise (fun a b : Int × Int => a.1 < b.1) data ∧
    ∀ p ∈ data, 2009 ≤ p.1 ∧ s ≤ p.1 ∧ p.1 ≤ e := by
  obtain ⟨h2009, d, hagg, hdata⟩ :=
    fetchData_success_inv fetch s e data (getGc_ok_inv fetch s e data src note h)
  have hkd : keysDistinct d :=
    keysDistinct_aggYears fetch e (yearsRange s e) [] d List.Pairwise.nil hagg
  constructor
  · rw [hdata]
    exact (sortedItems_pairwise_lt d hkd).filter _
  · intro p hp
    rw [hdata] at hp
    have hcond := (List.mem_filter.mp hp).2
    simp only [Bool.and_eq_true, decide_eq_true_eq] at hcond
    omega

/-- C4 counterexample: a fetched CSV row with a negative count flows
through to the success payload, so elector counts are not always
non-negative. -/
theorem claim_C4_counterexample :
    get_gc_registered_electors oracleNegative 2015 2015 =
      .ok [(2015, -5)] "Registration and Electoral Office"
        "Data fetched from voterregistration.gov.hk" ∧
    ¬ (0 : Int) ≤ -5 := by
  exact ⟨by decide, by decide⟩

/-- C4 witness: the amended claim evaluated on the end-to-end oracle over
(2019, 2022). -/
theorem claim_C4_witness :
    List.Pairwise (fun a b : Int × Int => a.1 < b.1)
      [((2019 : Int), (3800000 : Int)), (2020, 4000000), (2022, 4200000)] ∧
    ∀ p ∈ [((2019 : Int), (3800000 : Int)), (2020, 4000000), (2022, 4200000)],
      2009 ≤ p.1 ∧ 2019 ≤ p.1 ∧ p.1 ≤ 2022 :=
  claim_C4_sorted_bounded oracleEndToEnd 2019 2022
    [(2019, 3800000), (2020, 4000000), (2022, 4200000)]
    "Registration and Electoral Office"
    "Data fetched from voterregistration.gov.hk" (by decide)
